import Mathlib

/-!
Verification of the WASI capability-shim layer
(`otherlibs/unix/wasi_unavailable.c`) and the test-harness bootstrap
(`testsuite/cross/link.c`) against their natural-language specification.

The C code is shallowly embedded: OCaml runtime `value`s are opaque and
never inspected by the code under study, so they are modelled by `Nat`;
`caml_invalid_argument` raises the `Invalid_argument` OCaml exception and
does not return, so a shim body is a function into `Except CamlExn Value`
that always produces `Except.error`.
-/

/-- An OCaml runtime `value`. The shims never inspect their arguments, so
the carrier is irrelevant; `Nat` keeps everything executable. -/
abbrev Value := Nat

/-- The kinds of OCaml exception a C primitive in this runtime can raise:
`caml_invalid_argument` raises `invalid_argument`, `caml_failwith` raises
`failure`, and the real Unix library raises `unix_error`. The shim file
only ever uses `caml_invalid_argument`. -/
inductive CamlExn : Type where
  | invalid_argument (msg : String)
  | failure (msg : String)
  | unix_error (msg : String)
  deriving DecidableEq, Repr

/-- Embedding of `caml_invalid_argument(msg)`: raise
`Invalid_argument msg`; control never returns to the caller. -/
def caml_invalid_argument (msg : String) : Except CamlExn Value :=
  Except.error (CamlExn.invalid_argument msg)

/-- Embedding of the `UNAVAILABLE1(cname, camlname)` macro body:
`{ caml_invalid_argument(camlname " not available"); }`. -/
def UNAVAILABLE1 (camlname : String) : Value → Except CamlExn Value :=
  fun _arg1 => caml_invalid_argument (camlname ++ " not available")

/-- Embedding of the `UNAVAILABLE2(cname, camlname)` macro body. -/
def UNAVAILABLE2 (camlname : String) : Value → Value → Except CamlExn Value :=
  fun _arg1 _arg2 => caml_invalid_argument (camlname ++ " not available")

/-- Embedding of the `UNAVAILABLE3(cname, camlname)` macro body. Note the
source reads `caml_invalid_argument(camlname " not vailable")` — the
suffix is misspelled in this one macro, and the embedding preserves it. -/
def UNAVAILABLE3 (camlname : String) : Value → Value → Value → Except CamlExn Value :=
  fun _arg1 _arg2 _arg3 => caml_invalid_argument (camlname ++ " not vailable")

/-- Embedding of the `UNAVAILABLE4(cname, camlname)` macro body. -/
def UNAVAILABLE4 (camlname : String) : Value → Value → Value → Value → Except CamlExn Value :=
  fun _arg1 _arg2 _arg3 _arg4 => caml_invalid_argument (camlname ++ " not available")

/-- Embedding of the `UNAVAILABLE5(cname, camlname)` macro body. -/
def UNAVAILABLE5 (camlname : String) : Value → Value → Value → Value → Value → Except CamlExn Value :=
  fun _arg1 _arg2 _arg3 _arg4 _arg5 => caml_invalid_argument (camlname ++ " not available")

/- The 36 shim entry points, one per macro invocation in the source, in
source order. -/

def unix_wait := UNAVAILABLE1 "Unix.wait"
def unix_waitpid := UNAVAILABLE2 "Unix.waitpid"
def unix_sigprocmask := UNAVAILABLE2 "Unix.sigprocmask"
def unix_sigpending := UNAVAILABLE1 "Unix.sigpending"
def unix_sigsuspend := UNAVAILABLE1 "Unix.sigsuspend"
def unix_kill := UNAVAILABLE2 "Unix.kill"
def unix_getpwnam := UNAVAILABLE1 "Unix.getpwnam"
def unix_getpwuid := UNAVAILABLE1 "Unix.getpwuid"
def unix_getgrnam := UNAVAILABLE1 "Unix.getgrnam"
def unix_getgrgid := UNAVAILABLE1 "Unix.getgrgid"
def unix_alarm := UNAVAILABLE1 "Unix.alarm"
def unix_chmod := UNAVAILABLE2 "Unix.chmod"
def unix_chown := UNAVAILABLE3 "Unix.chown"
def unix_chroot := UNAVAILABLE1 "Unix.chroot"
def unix_dup := UNAVAILABLE2 "Unix.dup"
def unix_dup2 := UNAVAILABLE3 "Unix.dup2"
def unix_execv := UNAVAILABLE2 "Unix.execv"
def unix_execve := UNAVAILABLE3 "Unix.execve"
def unix_execvp := UNAVAILABLE2 "Unix.execvp"
def unix_execvpe := UNAVAILABLE3 "Unix.execvpe"
def unix_fork := UNAVAILABLE1 "Unix.fork"
def unix_getegid := UNAVAILABLE1 "Unix.getegid"
def unix_geteuid := UNAVAILABLE1 "Unix.geteuid"
def unix_getgid := UNAVAILABLE1 "Unix.getgid"
def unix_getlogin := UNAVAILABLE1 "Unix.getlogin"
def unix_getuid := UNAVAILABLE1 "Unix.getuid"
def unix_gethostname := UNAVAILABLE1 "Unix.gethostname"
def unix_getpid := UNAVAILABLE1 "Unix.getpid"
def unix_getppid := UNAVAILABLE1 "Unix.getppid"
def unix_mkfifo := UNAVAILABLE2 "Unix.mkfifo"
def unix_pipe := UNAVAILABLE2 "Unix.pipe"
def unix_setgid := UNAVAILABLE1 "Unix.setgid"
def unix_setsid := UNAVAILABLE1 "Unix.setsid"
def unix_setuid := UNAVAILABLE1 "Unix.setuid"
def unix_spawn := UNAVAILABLE5 "Unix.spawn"
def unix_umask := UNAVAILABLE1 "Unix.umask"

/-- One catalog entry: the C symbol name, the canonical OCaml-side name
passed to the macro, and which `UNAVAILABLEn` macro generated it (its
number is the entry's arity). -/
structure ShimEntry : Type where
  cname : String
  camlname : String
  macroArity : Nat
  deriving DecidableEq, Repr

/-- The shim catalog: the 36 macro invocations of
`wasi_unavailable.c`, in source order. -/
def shimCatalog : List ShimEntry :=
  [ ⟨"unix_wait", "Unix.wait", 1⟩,
    ⟨"unix_waitpid", "Unix.waitpid", 2⟩,
    ⟨"unix_sigprocmask", "Unix.sigprocmask", 2⟩,
    ⟨"unix_sigpending", "Unix.sigpending", 1⟩,
    ⟨"unix_sigsuspend", "Unix.sigsuspend", 1⟩,
    ⟨"unix_kill", "Unix.kill", 2⟩,
    ⟨"unix_getpwnam", "Unix.getpwnam", 1⟩,
    ⟨"unix_getpwuid", "Unix.getpwuid", 1⟩,
    ⟨"unix_getgrnam", "Unix.getgrnam", 1⟩,
    ⟨"unix_getgrgid", "Unix.getgrgid", 1⟩,
    ⟨"unix_alarm", "Unix.alarm", 1⟩,
    ⟨"unix_chmod", "Unix.chmod", 2⟩,
    ⟨"unix_chown", "Unix.chown", 3⟩,
    ⟨"unix_chroot", "Unix.chroot", 1⟩,
    ⟨"unix_dup", "Unix.dup", 2⟩,
    ⟨"unix_dup2", "Unix.dup2", 3⟩,
    ⟨"unix_execv", "Unix.execv", 2⟩,
    ⟨"unix_execve", "Unix.execve", 3⟩,
    ⟨"unix_execvp", "Unix.execvp", 2⟩,
    ⟨"unix_execvpe", "Unix.execvpe", 3⟩,
    ⟨"unix_fork", "Unix.fork", 1⟩,
    ⟨"unix_getegid", "Unix.getegid", 1⟩,
    ⟨"unix_geteuid", "Unix.geteuid", 1⟩,
    ⟨"unix_getgid", "Unix.getgid", 1⟩,
    ⟨"unix_getlogin", "Unix.getlogin", 1⟩,
    ⟨"unix_getuid", "Unix.getuid", 1⟩,
    ⟨"unix_gethostname", "Unix.gethostname", 1⟩,
    ⟨"unix_getpid", "Unix.getpid", 1⟩,
    ⟨"unix_getppid", "Unix.getppid", 1⟩,
    ⟨"unix_mkfifo", "Unix.mkfifo", 2⟩,
    ⟨"unix_pipe", "Unix.pipe", 2⟩,
    ⟨"unix_setgid", "Unix.setgid", 1⟩,
    ⟨"unix_setsid", "Unix.setsid", 1⟩,
    ⟨"unix_setuid", "Unix.setuid", 1⟩,
    ⟨"unix_spawn", "Unix.spawn", 5⟩,
    ⟨"unix_umask", "Unix.umask", 1⟩ ]

/-- Calling a catalog entry's shim on an argument list: dispatches to the
body of the `UNAVAILABLEn` macro that generated the entry. `none` means
the call is ill-arited (impossible for C call sites compiled against the
declared signatures). -/
def shimCall (e : ShimEntry) (args : List Value) : Option (Except CamlExn Value) :=
  match e.macroArity, args with
  | 1, [a1] => some (UNAVAILABLE1 e.camlname a1)
  | 2, [a1, a2] => some (UNAVAILABLE2 e.camlname a1 a2)
  | 3, [a1, a2, a3] => some (UNAVAILABLE3 e.camlname a1 a2 a3)
  | 4, [a1, a2, a3, a4] => some (UNAVAILABLE4 e.camlname a1 a2 a3 a4)
  | 5, [a1, a2, a3, a4, a5] => some (UNAVAILABLE5 e.camlname a1 a2 a3 a4 a5)
  | _, _ => none

/-- The message string each macro body builds for an entry: the canonical
name followed by the literal suffix appearing in the generating macro
(`" not vailable"` in `UNAVAILABLE3`, `" not available"` in the others). -/
def shimMessage (e : ShimEntry) : String :=
  e.camlname ++ (if e.macroArity = 3 then " not vailable" else " not available")

theorem arity_bounds :
    ∀ e ∈ shimCatalog, 1 ≤ e.macroArity ∧ e.macroArity ≤ 5 := by decide

theorem shimCall_eq_message (e : ShimEntry) (args : List Value)
    (h1 : 1 ≤ e.macroArity) (h5 : e.macroArity ≤ 5)
    (hlen : args.length = e.macroArity) :
    shimCall e args = some (Except.error (CamlExn.invalid_argument (shimMessage e))) := by
  obtain ⟨cn, nm, k⟩ := e
  simp only [ShimEntry.macroArity] at h1 h5 hlen
  interval_cases k <;>
    rcases args with _ | ⟨a1, _ | ⟨a2, _ | ⟨a3, _ | ⟨a4, _ | ⟨a5, _ | ⟨a6, t⟩⟩⟩⟩⟩⟩ <;>
    simp_all [shimCall, shimMessage, UNAVAILABLE1, UNAVAILABLE2, UNAVAILABLE3,
      UNAVAILABLE4, UNAVAILABLE5, caml_invalid_argument]

/-! State-passing view of the shim bodies, for the frame property. A C
primitive may in general read and mutate arbitrary runtime/OS state; the
embedding threads an abstract state `σ` through each body. The shim
bodies invoke no state-touching operation at all — their single statement
is the raise — so their state-passing forms only ever forward `σ`. -/

/-- State-passing embedding of `caml_invalid_argument(msg)`: raising the
exception touches no program state. -/
def caml_invalid_argumentM (σ : Type) (msg : String) : σ → σ × Except CamlExn Value :=
  fun w => (w, Except.error (CamlExn.invalid_argument msg))

/-- State-passing form of the `UNAVAILABLE1` macro body. -/
def UNAVAILABLE1M (σ : Type) (camlname : String) : Value → σ → σ × Except CamlExn Value :=
  fun _arg1 => caml_invalid_argumentM σ (camlname ++ " not available")

/-- State-passing form of the `UNAVAILABLE2` macro body. -/
def UNAVAILABLE2M (σ : Type) (camlname : String) : Value → Value → σ → σ × Except CamlExn Value :=
  fun _arg1 _arg2 => caml_invalid_argumentM σ (camlname ++ " not available")

/-- State-passing form of the `UNAVAILABLE3` macro body (misspelled
suffix as in the source). -/
def UNAVAILABLE3M (σ : Type) (camlname : String) : Value → Value → Value → σ → σ × Except CamlExn Value :=
  fun _arg1 _arg2 _arg3 => caml_invalid_argumentM σ (camlname ++ " not vailable")

/-- State-passing form of the `UNAVAILABLE4` macro body. -/
def UNAVAILABLE4M (σ : Type) (camlname : String) : Value → Value → Value → Value → σ → σ × Except CamlExn Value :=
  fun _arg1 _arg2 _arg3 _arg4 => caml_invalid_argumentM σ (camlname ++ " not available")

/-- State-passing form of the `UNAVAILABLE5` macro body. -/
def UNAVAILABLE5M (σ : Type) (camlname : String) : Value → Value → Value → Value → Value → σ → σ × Except CamlExn Value :=
  fun _arg1 _arg2 _arg3 _arg4 _arg5 => caml_invalid_argumentM σ (camlname ++ " not available")

/-- State-passing call of a catalog entry's shim. -/
def shimCallM (σ : Type) (e : ShimEntry) (args : List Value) (w : σ) :
    σ × Option (Except CamlExn Value) :=
  match e.macroArity, args with
  | 1, [a1] =>
      let r := UNAVAILABLE1M σ e.camlname a1 w
      (r.1, some r.2)
  | 2, [a1, a2] =>
      let r := UNAVAILABLE2M σ e.camlname a1 a2 w
      (r.1, some r.2)
  | 3, [a1, a2, a3] =>
      let r := UNAVAILABLE3M σ e.camlname a1 a2 a3 w
      (r.1, some r.2)
  | 4, [a1, a2, a3, a4] =>
      let r := UNAVAILABLE4M σ e.camlname a1 a2 a3 a4 w
      (r.1, some r.2)
  | 5, [a1, a2, a3, a4, a5] =>
      let r := UNAVAILABLE5M σ e.camlname a1 a2 a3 a4 a5 w
      (r.1, some r.2)
  | _, _ => (w, none)

/-! Embedding of `testsuite/cross/link.c`. The `init` bootstrap builds a
two-slot argv and hands it to `caml_startup`; the embedding returns that
argv (a C `char*` is `Option String`, `none` for NULL). Platform
conditions and the results of the external queries are inputs. -/

/-- The platform facts `init` consults: whether `__APPLE__` or
`__linux__` is defined, what `getprogname()` returns on Apple (NULL is
`none`), and, on Linux, the bytes `readlink("/proc/self/exe", ...)`
deposits when it succeeds (`none` when it returns a negative value). -/
structure PlatformEnv : Type where
  isApple : Bool
  isLinux : Bool
  getprogname : Option String
  readlinkExe : Option String
  deriving Repr

/-- Embedding of `init` in `link.c`: computes the argv passed to
`caml_startup`. `progname` starts NULL, is set from `getprogname()` under
`__APPLE__`, overwritten with the readlink buffer under `__linux__` when
`readlink` does not fail, and defaulted to `"/unknown/program/name"` when
still NULL; argv is `{progname, NULL}`. -/
def init (env : PlatformEnv) : List (Option String) :=
  let progname : Option String := none
  let progname := if env.isApple then env.getprogname else progname
  let progname :=
    if env.isLinux then
      match env.readlinkExe with
      | some buf => some buf
      | none => progname
    else progname
  let progname :=
    match progname with
    | none => some "/unknown/program/name"
    | some p => some p
  [progname, none]

/-- C1: the claim says every shim's error message is exactly the canonical
name followed by the suffix " not available". The code contradicts this
for the four entries generated by the `UNAVAILABLE3` macro, whose body
misspells the suffix as " not vailable": evaluating `unix_chown` at a
concrete well-arited input shows the message the code actually produces,
and that it differs from the one the claim requires. -/
theorem C1_unavailable3_typo_eval :
    unix_chown 0 1 2 =
      Except.error (CamlExn.invalid_argument "Unix.chown not vailable") ∧
    "Unix.chown not vailable" ≠ "Unix.chown not available" := by
  constructor
  · rfl
  · decide

/-- C2: every shim call unconditionally fails — for every catalog entry
and all argument lists, the call never yields `Except.ok`. -/
theorem C2_shim_never_returns :
    ∀ e ∈ shimCatalog, ∀ (args : List Value) (v : Value),
      shimCall e args ≠ some (Except.ok v) := by
  intro e he args v
  unfold shimCall
  split <;>
    simp [UNAVAILABLE1, UNAVAILABLE2, UNAVAILABLE3, UNAVAILABLE4, UNAVAILABLE5,
      caml_invalid_argument]

theorem C2_shim_never_returns_witness :
    shimCall ⟨"unix_fork", "Unix.fork", 1⟩ [42] ≠ some (Except.ok 0) :=
  C2_shim_never_returns ⟨"unix_fork", "Unix.fork", 1⟩ (by decide) [42] 0

/-- C3: the catalog realises exactly the catalogued (name, arity) pairs,
in source order, and every arity lies between 1 and 5. -/
theorem C3_catalog_arities :
    shimCatalog.map (fun e => (e.camlname, e.macroArity)) =
      [("Unix.wait", 1), ("Unix.waitpid", 2), ("Unix.sigprocmask", 2),
       ("Unix.sigpending", 1), ("Unix.sigsuspend", 1), ("Unix.kill", 2),
       ("Unix.getpwnam", 1), ("Unix.getpwuid", 1), ("Unix.getgrnam", 1),
       ("Unix.getgrgid", 1), ("Unix.alarm", 1), ("Unix.chmod", 2),
       ("Unix.chown", 3), ("Unix.chroot", 1), ("Unix.dup", 2),
       ("Unix.dup2", 3), ("Unix.execv", 2), ("Unix.execve", 3),
       ("Unix.execvp", 2), ("Unix.execvpe", 3), ("Unix.fork", 1),
       ("Unix.getegid", 1), ("Unix.geteuid", 1), ("Unix.getgid", 1),
       ("Unix.getlogin", 1), ("Unix.getuid", 1), ("Unix.gethostname", 1),
       ("Unix.getpid", 1), ("Unix.getppid", 1), ("Unix.mkfifo", 2),
       ("Unix.pipe", 2), ("Unix.setgid", 1), ("Unix.setsid", 1),
       ("Unix.setuid", 1), ("Unix.spawn", 5), ("Unix.umask", 1)] ∧
    ∀ e ∈ shimCatalog, 1 ≤ e.macroArity ∧ e.macroArity ≤ 5 :=
  ⟨rfl, arity_bounds⟩

theorem C3_catalog_arities_witness :
    1 ≤ (ShimEntry.mk "unix_spawn" "Unix.spawn" 5).macroArity ∧
    (ShimEntry.mk "unix_spawn" "Unix.spawn" 5).macroArity ≤ 5 :=
  C3_catalog_arities.2 ⟨"unix_spawn", "Unix.spawn", 5⟩ (by decide)

/-- C4: each shim's failure is deterministic and independent of its
arguments — two well-arited calls of the same entry produce identical
outcomes (hence byte-identical error messages). -/
theorem C4_deterministic :
    ∀ e ∈ shimCatalog, ∀ (args args' : List Value),
      args.length = e.macroArity → args'.length = e.macroArity →
      shimCall e args = shimCall e args' := by
  intro e he args args' h h'
  obtain ⟨h1, h5⟩ := arity_bounds e he
  rw [shimCall_eq_message e args h1 h5 h, shimCall_eq_message e args' h1 h5 h']

theorem C4_deterministic_witness :
    shimCall ⟨"unix_kill", "Unix.kill", 2⟩ [0, 9] =
      shimCall ⟨"unix_kill", "Unix.kill", 2⟩ [100, 15] :=
  C4_deterministic ⟨"unix_kill", "Unix.kill", 2⟩ (by decide) [0, 9] [100, 15] rfl rfl

/-- C5: all 36 entries fail with one and the same error kind — the
`Invalid_argument` exception raised by `caml_invalid_argument` — and its
payload carries the entry's canonical name (as a prefix of the message);
no entry fails with any other kind. -/
theorem C5_single_error_kind :
    ∀ e ∈ shimCatalog, ∀ args : List Value, args.length = e.macroArity →
      ∃ suffix, shimCall e args =
        some (Except.error (CamlExn.invalid_argument (e.camlname ++ suffix))) := by
  intro e he args hlen
  obtain ⟨h1, h5⟩ := arity_bounds e he
  refine ⟨if e.macroArity = 3 then " not vailable" else " not available", ?_⟩
  rw [shimCall_eq_message e args h1 h5 hlen]
  rfl

theorem C5_single_error_kind_witness :
    ∃ suffix, shimCall ⟨"unix_umask", "Unix.umask", 1⟩ [7] =
      some (Except.error (CamlExn.invalid_argument ("Unix.umask" ++ suffix))) :=
  C5_single_error_kind ⟨"unix_umask", "Unix.umask", 1⟩ (by decide) [7] rfl

/-- C6: a shim call has no observable effect besides signaling the
failure: in the state-passing embedding, for every catalog entry, every
state type, every starting state and every argument list, the state after
the call is the starting state unchanged. -/
theorem C6_no_state_change :
    ∀ e ∈ shimCatalog, ∀ (σ : Type) (w : σ) (args : List Value),
      (shimCallM σ e args w).1 = w := by
  intro e he σ w args
  unfold shimCallM
  split <;> rfl

theorem C6_no_state_change_witness :
    (shimCallM Nat ⟨"unix_pipe", "Unix.pipe", 2⟩ [1, 2] 37).1 = 37 :=
  C6_no_state_change ⟨"unix_pipe", "Unix.pipe", 2⟩ (by decide) Nat 37 [1, 2]

/-- C7: `unix_fork` fails with exactly "Unix.fork not available" on its
one argument, and `unix_spawn` fails with exactly
"Unix.spawn not available" on any five arguments. -/
theorem C7_fork_spawn_messages :
    (∀ a1 : Value,
      unix_fork a1 = Except.error (CamlExn.invalid_argument "Unix.fork not available")) ∧
    (∀ a1 a2 a3 a4 a5 : Value,
      unix_spawn a1 a2 a3 a4 a5 =
        Except.error (CamlExn.invalid_argument "Unix.spawn not available")) :=
  ⟨fun _ => rfl, fun _ _ _ _ _ => rfl⟩

/-- C8: canonical names are unique within the catalog, and consequently
no two distinct entries produce the same error message. -/
theorem C8_names_unique :
    (shimCatalog.map (fun e => e.camlname)).Nodup ∧
    (shimCatalog.map shimMessage).Nodup := by
  constructor <;> decide

/-- C9: `init` always hands `caml_startup` an argv of exactly two slots,
slot 1 NULL and slot 0 a non-NULL program name; and whenever neither the
Apple `getprogname` branch nor a successful Linux readlink supplies a
name, slot 0 is exactly "/unknown/program/name". -/
theorem C9_init_argv :
    ∀ env : PlatformEnv,
      ((init env).length = 2 ∧ (init env)[1]? = some none ∧
        ∃ p : String, (init env)[0]? = some (some p)) ∧
      ((env.isApple = true → env.getprogname = none) →
       (env.isLinux = true → env.readlinkExe = none) →
       (init env)[0]? = some (some "/unknown/program/name")) := by
  intro env
  obtain ⟨ia, il, gp, rl⟩ := env
  constructor
  · cases ia <;> cases il <;> cases gp <;> cases rl <;> simp [init]
  · intro hA hL
    cases ia <;> cases il <;> simp_all [init]

theorem C9_init_argv_witness :
    (init ⟨false, true, none, none⟩)[0]? = some (some "/unknown/program/name") :=
  (C9_init_argv ⟨false, true, none, none⟩).2 (by decide) (by decide)

/-- C10: every canonical name in the catalog begins with "Unix.", and so
does the error message of every well-arited shim call. -/
theorem C10_unix_dot_names :
    ∀ e ∈ shimCatalog,
      "Unix.".toList <+: e.camlname.toList ∧
      ∀ args : List Value, args.length = e.macroArity →
        ∃ msg, shimCall e args = some (Except.error (CamlExn.invalid_argument msg)) ∧
          "Unix.".toList <+: msg.toList := by
  intro e he
  have hname : ∀ x ∈ shimCatalog, "Unix.".toList <+: x.camlname.toList := by decide
  have hmsg : ∀ x ∈ shimCatalog, "Unix.".toList <+: (shimMessage x).toList := by decide
  refine ⟨hname e he, ?_⟩
  intro args hlen
  obtain ⟨h1, h5⟩ := arity_bounds e he
  exact ⟨shimMessage e, shimCall_eq_message e args h1 h5 hlen, hmsg e he⟩

theorem C10_unix_dot_names_witness :
    ∃ msg, shimCall ⟨"unix_getpid", "Unix.getpid", 1⟩ [3] =
      some (Except.error (CamlExn.invalid_argument msg)) ∧
      "Unix.".toList <+: msg.toList :=
  (C10_unix_dot_names ⟨"unix_getpid", "Unix.getpid", 1⟩ (by decide)).2 [3] rfl
